import Mathlib

/-!
Shallow embedding of the HomeTom controller's scene automation engine
(src/controller): the condition evaluator (domain/scene_engine/conditions.py),
the definition parser (domain/scene_engine/parser.py) with its pydantic
entity model (domain/entities/scene.py), the scene scheduler
(domain/scene_engine/scheduler.py) and the scene executor
(domain/scene_engine/executor.py).

Python values flowing through the untyped dictionaries are modelled by the
inductive PyVal below; Python dictionaries are association lists with
string keys (the JSON shapes the code handles).  Exceptions are modelled by
Except String carrying the message text.  The ambient wall clock
(datetime.now) is passed in explicitly as a time-of-day value.
-/

/-- A Python value as it appears in the JSON-like scene definitions:
None, bool, int, str, list, dict (string keys). -/
inductive PyVal where
  | null
  | bool (b : Bool)
  | int (n : Int)
  | str (s : String)
  | list (xs : List PyVal)
  | dict (kvs : List (String × PyVal))

mutual

/-- Python equality (the == operator) on PyVal: bool is an int subclass,
so True == 1; values of unrelated types compare unequal rather than
raising; lists compare elementwise; dicts compare as key-value maps. -/
def pyEq : PyVal → PyVal → Bool
  | .null, .null => true
  | .bool a, .bool b => a == b
  | .bool a, .int n => (if a then (1 : Int) else 0) == n
  | .int n, .bool b => n == (if b then (1 : Int) else 0)
  | .int m, .int n => m == n
  | .str a, .str b => a == b
  | .list xs, .list ys => pyEqList xs ys
  | .dict xs, .dict ys => xs.length == ys.length && pyEqEntries xs ys
  | _, _ => false

def pyEqList : List PyVal → List PyVal → Bool
  | [], [] => true
  | x :: xs, y :: ys => pyEq x y && pyEqList xs ys
  | _, _ => false

def pyEqEntries : List (String × PyVal) → List (String × PyVal) → Bool
  | [], _ => true
  | (k, v) :: xs, ys =>
      (match ys.find? (fun p => p.1 == k) with
       | some p => pyEq v p.2
       | none => false) && pyEqEntries xs ys

end

mutual

/-- Python ordering comparison on PyVal: numbers (bool counts as int)
and strings are ordered, lists lexicographically; anything else
(None, dict, mixed types) is unorderable and raises TypeError,
modelled as none. -/
def pyCmpVal : PyVal → PyVal → Option Ordering
  | .int m, .int n => some (compare m n)
  | .int m, .bool b => some (compare m (if b then (1 : Int) else 0))
  | .bool a, .int n => some (compare (if a then (1 : Int) else 0) n)
  | .bool a, .bool b => some (compare (if a then (1 : Int) else 0) (if b then (1 : Int) else 0))
  | .str a, .str b => some (compare a b)
  | .list xs, .list ys => pyCmpList xs ys
  | _, _ => none

def pyCmpList : List PyVal → List PyVal → Option Ordering
  | [], [] => some .eq
  | [], _ :: _ => some .lt
  | _ :: _, [] => some .gt
  | x :: xs, y :: ys => if pyEq x y then pyCmpList xs ys else pyCmpVal x y

end

/-- The single-quote character, used by Python repr of strings. -/
def pyQuote : String := String.mk [Char.ofNat 39]

mutual

/-- Python repr of a PyVal (used by str() inside containers). -/
def pyRepr : PyVal → String
  | .null => "None"
  | .bool b => if b then "True" else "False"
  | .int n => toString n
  | .str s => pyQuote ++ s ++ pyQuote
  | .list xs => "[" ++ pyReprList xs ++ "]"
  | .dict kvs => "\x7b" ++ pyReprEntries kvs ++ "\x7d"

def pyReprList : List PyVal → String
  | [] => ""
  | [x] => pyRepr x
  | x :: xs => pyRepr x ++ ", " ++ pyReprList xs

def pyReprEntries : List (String × PyVal) → String
  | [] => ""
  | [(k, v)] => pyQuote ++ k ++ pyQuote ++ ": " ++ pyRepr v
  | (k, v) :: kvs => pyQuote ++ k ++ pyQuote ++ ": " ++ pyRepr v ++ ", " ++ pyReprEntries kvs

end

/-- Python str() of a PyVal, as interpolated by f-strings. -/
def pyStr : PyVal → String
  | .str s => s
  | v => pyRepr v

/-- Python type name, used in TypeError and AttributeError messages. -/
def pyTypeName : PyVal → String
  | .null => "NoneType"
  | .bool _ => "bool"
  | .int _ => "int"
  | .str _ => "str"
  | .list _ => "list"
  | .dict _ => "dict"

/-- Python truthiness of a PyVal. -/
def pyTruthy : PyVal → Bool
  | .null => false
  | .bool b => b
  | .int n => n != 0
  | .str s => s != ""
  | .list xs => !xs.isEmpty
  | .dict kvs => !kvs.isEmpty

/-- str.lower() (the scene grammar only uses ASCII operator names). -/
def pyStrLower (s : String) : String :=
  String.mk (s.data.map Char.toLower)

/-- Helper for str.split(): walk the characters accumulating the current
word (reversed), breaking at whitespace and dropping empty words. -/
def splitWsChars : List Char → List Char → List String
  | [], cur => if cur.isEmpty then [] else [String.mk cur.reverse]
  | c :: cs, cur =>
    if c.isWhitespace then
      (if cur.isEmpty then [] else [String.mk cur.reverse]) ++ splitWsChars cs []
    else splitWsChars cs (c :: cur)

/-- str.split() with no separator: split on runs of whitespace, with no
empty words. -/
def pySplitWs (s : String) : List String :=
  splitWsChars s.data []

/-- str.split(sep) on a single separator character, keeping empty
pieces. -/
def splitCharsOn (sep : Char) : List Char → List Char → List (List Char)
  | [], cur => [cur.reverse]
  | c :: cs, cur =>
    if c == sep then cur.reverse :: splitCharsOn sep cs []
    else splitCharsOn sep cs (c :: cur)

/-- The numeric value of a string of decimal digits. -/
def digitsToNat (cs : List Char) : Nat :=
  cs.foldl (fun n c => 10 * n + (c.toNat - 48)) 0

/-- A Python dict with string keys (the shape of all definition data). -/
abbrev PyDict := List (String × PyVal)

/-- dict.get(k) for string keys. -/
def PyDict.get? (d : PyDict) (k : String) : Option PyVal :=
  (d.find? (fun p => p.1 == k)).map (fun p => p.2)

/-- dict.get(k, default) for string keys. -/
def PyDict.getD (d : PyDict) (k : String) (v : PyVal) : PyVal :=
  (PyDict.get? d k).getD v

/-- k in dict, for string keys. -/
def PyDict.hasKey (d : PyDict) (k : String) : Bool :=
  d.any (fun p => p.1 == k)

/-- dict.get(k) where the looked-up key is an arbitrary Python value and
the dict has string keys (Python compares keys with ==). -/
def pyGetByVal (d : List (String × PyVal)) (k : PyVal) : Option PyVal :=
  (d.find? (fun p => pyEq k (.str p.1))).map (fun p => p.2)

/-- A clock time of day with hour and minute fields, as produced by
datetime.strptime(s, "%H:%M").time(); datetime.time values compare
lexicographically by field. -/
structure TimeHM where
  hour : Nat
  minute : Nat
deriving DecidableEq, Repr

/-- Lexicographic comparison of times of day (Python time ordering). -/
def TimeHM.leb (a b : TimeHM) : Bool :=
  Nat.blt a.hour b.hour || (a.hour == b.hour && Nat.ble a.minute b.minute)

/-- Minutes since midnight (specification-side reading of a clock time). -/
def TimeHM.toMinutes (t : TimeHM) : Nat :=
  60 * t.hour + t.minute

/-- datetime.strptime(value, "%H:%M").time(): the argument must be a str
of the form H:M (1-2 digits each, hour 0-23, minute 0-59), else the call
raises (TypeError for non-str, ValueError for a non-matching string). -/
def parseHM : PyVal → Except String TimeHM
  | .str s =>
    match splitCharsOn (Char.ofNat 58) s.data [] with
    | [hs, ms] =>
      if (!hs.isEmpty) && Nat.ble hs.length 2 && hs.all Char.isDigit
          && (!ms.isEmpty) && Nat.ble ms.length 2 && ms.all Char.isDigit then
        let h := digitsToNat hs
        let m := digitsToNat ms
        if Nat.ble h 23 && Nat.ble m 59 then .ok ⟨h, m⟩
        else .error ("time data " ++ s ++ " does not match format %H:%M")
      else .error ("time data " ++ s ++ " does not match format %H:%M")
    | _ => .error ("time data " ++ s ++ " does not match format %H:%M")
  | v => .error ("strptime argument 1 must be str, not " ++ pyTypeName v)

/-- DeviceState entity (domain/entities/device.py): the state string plus
a dict of extra attributes; the last_updated stamp is carried but never
read by the scene engine. -/
structure DeviceState where
  state : String
  attributes : List (String × PyVal)
  last_updated : Nat := 0

/-- The evaluation context dict built by SceneExecutor._prepare_context:
device_states maps the device ids referenced by the scene (arbitrary
Python values used as keys) to their cached states. -/
structure Context where
  device_states : List (PyVal × DeviceState)
  scene_id : String
  current_time : TimeHM

/-- The TypeError message raised by an unsupported ordering comparison. -/
def cmpTypeErr (sym : String) (a b : PyVal) : String :=
  sym ++ " not supported between instances of " ++ pyTypeName a ++ " and " ++ pyTypeName b

/-- DeviceStateCondition._compare: dispatch on the operator string;
eq and ne use Python ==, the four order operators use Python ordering
(raising TypeError on unorderable operands); any other operator falls
through to False. -/
def DeviceStateCondition.compare (actual expected operator : PyVal) : Except String Bool :=
  if pyEq operator (.str "eq") then .ok (pyEq actual expected)
  else if pyEq operator (.str "ne") then .ok (!pyEq actual expected)
  else if pyEq operator (.str "gt") then
    match pyCmpVal actual expected with
    | some o => .ok (o == .gt)
    | none => .error (cmpTypeErr ">" actual expected)
  else if pyEq operator (.str "ge") then
    match pyCmpVal actual expected with
    | some o => .ok (o == .gt || o == .eq)
    | none => .error (cmpTypeErr ">=" actual expected)
  else if pyEq operator (.str "lt") then
    match pyCmpVal actual expected with
    | some o => .ok (o == .lt)
    | none => .error (cmpTypeErr "<" actual expected)
  else if pyEq operator (.str "le") then
    match pyCmpVal actual expected with
    | some o => .ok (o == .lt || o == .eq)
    | none => .error (cmpTypeErr "<=" actual expected)
  else .ok false

/-- DeviceStateCondition.evaluate: look the device up in
context["device_states"] (absent or falsy state means False); resolve the
compared attribute (the literal name "state" reads the state field, any
other name reads the attributes dict); a missing or None attribute value
means False; otherwise compare with _compare.  The fields device_id,
operator, attribute, value are those bound by __init__ from the condition
dict (operator defaulting to "eq", attribute to "state", value to None). -/
def DeviceStateCondition.evaluate (device_id operator attr value : PyVal)
    (ctx : Context) : Except String Bool :=
  match ctx.device_states.find? (fun p => pyEq device_id p.1) with
  | none => .ok false
  | some (_, device_state) =>
    let actual? : Option PyVal :=
      if pyEq attr (.str "state") then some (.str device_state.state)
      else pyGetByVal device_state.attributes attr
    match actual? with
    | none => .ok false
    | some .null => .ok false
    | some actual_value => DeviceStateCondition.compare actual_value value operator

/-- TimeRangeCondition.evaluate at wall-clock time now: a same-day range
when start <= end (inclusive both ends), a range wrapping midnight
otherwise (now >= start or now <= end). -/
def TimeRangeCondition.evaluate (start stop now : TimeHM) : Bool :=
  if TimeHM.leb start stop then TimeHM.leb start now && TimeHM.leb now stop
  else TimeHM.leb start now || TimeHM.leb now stop

/-- A condition instance as produced by ConditionFactory.create: the
factory registry holds exactly the two leaf strategies. -/
inductive Cond where
  | deviceState (device_id operator attr value : PyVal)
  | timeRange (start stop : TimeHM)

/-- Evaluate a leaf condition against the context, with now the ambient
wall-clock time read by TimeRangeCondition. -/
def Cond.evaluate : Cond → Context → TimeHM → Except String Bool
  | .deviceState did op attr v, ctx, _ => DeviceStateCondition.evaluate did op attr v ctx
  | .timeRange s e, _, now => .ok (TimeRangeCondition.evaluate s e now)

/-- ConditionFactory.create: reads the type tag from the condition dict;
a tag outside the registry (device_state, time_range) raises ValueError;
the device_state branch requires the device_id and condition keys
(KeyError when missing) and reads operator, attribute and value with
their defaults; the time_range branch requires start and end and parses
them with strptime. -/
def ConditionFactory.create (condition_data : PyVal) : Except String Cond :=
  match condition_data with
  | .dict kvs =>
    let cond_type := PyDict.getD kvs "type" .null
    if pyEq cond_type (.str "device_state") then
      match PyDict.get? kvs "device_id" with
      | none => .error "KeyError: device_id"
      | some did =>
        match PyDict.get? kvs "condition" with
        | none => .error "KeyError: condition"
        | some (.dict ckvs) =>
            .ok (.deviceState did (PyDict.getD ckvs "operator" (.str "eq"))
              (PyDict.getD ckvs "attribute" (.str "state"))
              (PyDict.getD ckvs "value" .null))
        | some other => .error (pyTypeName other ++ " object has no attribute get")
    else if pyEq cond_type (.str "time_range") then
      match PyDict.get? kvs "start" with
      | none => .error "KeyError: start"
      | some vs =>
        match PyDict.get? kvs "end" with
        | none => .error "KeyError: end"
        | some ve => do
            let s ← parseHM vs
            let e ← parseHM ve
            .ok (.timeRange s e)
    else .error ("Unknown condition type: " ++ pyStr cond_type)
  | other => .error (pyTypeName other ++ " object has no attribute get")

/-- The child loop of ConditionGroup.evaluate: create each child through
the factory and evaluate it against the same context, appending to the
results list; a raising child aborts the loop. -/
def ConditionGroup.evalChildren (ctx : Context) (now : TimeHM) : List PyVal → Except String (List Bool)
  | [] => .ok []
  | cond_data :: rest => do
    let condition ← ConditionFactory.create cond_data
    let result ← condition.evaluate ctx now
    let results ← ConditionGroup.evalChildren ctx now rest
    pure (result :: results)

/-- ConditionGroup.evaluate: run every child dict through the factory and
evaluate it against the same context, collecting all results; combine
with all for the and operator, any for or, and False for anything else.
The operator argument is the string lowercased by
ConditionGroup.__init__. -/
def ConditionGroup.evaluate (operator : String) (conditions : List PyVal)
    (ctx : Context) (now : TimeHM) : Except String Bool := do
  let results ← ConditionGroup.evalChildren ctx now conditions
  if operator == "and" then pure (results.all id)
  else if operator == "or" then pure (results.any id)
  else pure false

/-- ConditionEvaluator.evaluate: a missing or falsy (empty) condition dict
passes by default; a dict carrying both operator and items is treated as a
group (lowercasing the operator, which must be a str, and iterating items,
which must be a list); anything else goes through the factory as a leaf. -/
def ConditionEvaluator.evaluate (condition_data : Option PyDict) (ctx : Context)
    (now : TimeHM) : Except String Bool :=
  match condition_data with
  | none => .ok true
  | some d =>
    if d.isEmpty then .ok true
    else
      match PyDict.get? d "operator", PyDict.get? d "items" with
      | some op, some items =>
        match op with
        | .str s =>
          match items with
          | .list xs => ConditionGroup.evaluate (pyStrLower s) xs ctx now
          | other => .error (pyTypeName other ++ " object is not iterable")
        | other => .error (pyTypeName other ++ " object has no attribute lower")
      | _, _ => do
          let condition ← ConditionFactory.create (.dict d)
          condition.evaluate ctx now

/-- ConditionGroup pydantic model (domain/entities/scene.py): operator is
the literal "and" or "or", items a list of condition dicts. -/
structure ConditionGroupModel where
  operator : String
  items : List PyDict

/-- SceneDefinition pydantic model: triggers defaulting to the empty
list, optional conditions group, required actions list; triggers, items
and actions are lists of untyped dicts. -/
structure SceneDefinition where
  triggers : List PyDict
  conditions : Option ConditionGroupModel
  actions : List PyDict

/-- Scene entity: id, name, optional description, parsed definition,
active flag. -/
structure Scene where
  id : String
  name : String
  description : Option String := none
  definition : SceneDefinition
  is_active : Bool := true

/-- ConditionGroup.model_dump(): the dict handed by the executor to the
condition evaluator. -/
def ConditionGroupModel.model_dump (g : ConditionGroupModel) : PyDict :=
  [("operator", .str g.operator), ("items", .list (g.items.map PyVal.dict))]

/-- The controller exception taxonomy (exceptions.py), one constructor
per exception class, each carrying its message parts. -/
inductive ControllerError where
  | halCommunicationError (message : String)
  | deviceNotFoundError (device_id : String)
  | sceneNotFoundError (scene_id : String)
  | sceneExecutionError (scene_id reason : String)
  | sceneDefinitionError (message : String)
  | databaseError (message : String)
  | stateManagerError (message : String)

/-- Element loop of pydantic List of Dict validation. -/
def validateDictListAux (field : String) : List PyVal → Except String (List PyDict)
  | [] => .ok []
  | x :: xs =>
    match x with
    | .dict kvs => (validateDictListAux field xs).map (fun rest => kvs :: rest)
    | _ => .error (field ++ " items must be dictionaries")

/-- Pydantic validation of a field typed List of Dict: the value must be
a list and every element a dict. -/
def validateDictList (v : PyVal) (field : String) : Except String (List PyDict) :=
  match v with
  | .list xs => validateDictListAux field xs
  | _ => .error (field ++ " must be a list")

/-- Pydantic validation of the ConditionGroup model: requires the
operator key with literal value and or or, and the items key holding a
list of dicts. -/
def ConditionGroupModel.validate (v : PyVal) : Except String ConditionGroupModel :=
  match v with
  | .dict kvs =>
    match PyDict.get? kvs "operator", PyDict.get? kvs "items" with
    | some (.str op), some items =>
        if op == "and" || op == "or" then do
          let its ← validateDictList items "items"
          .ok ⟨op, its⟩
        else .error "conditions.operator must be the literal and or or"
    | _, _ => .error "conditions requires operator and items fields"
  | _ => .error "conditions must be a dictionary"

/-- Pydantic validation of SceneDefinition(**data): triggers defaults to
the empty list and must otherwise be a list of dicts; conditions is
optional (absent or None) and must otherwise validate as a group;
actions is required and must be a list of dicts.  Extra keys are
ignored. -/
def SceneDefinition.validate (data : PyDict) : Except String SceneDefinition := do
  let triggers ← match PyDict.get? data "triggers" with
    | none => Except.ok []
    | some t => validateDictList t "triggers"
  let conditions ← match PyDict.get? data "conditions" with
    | none => Except.ok none
    | some .null => Except.ok none
    | some c => (ConditionGroupModel.validate c).map some
  let actions ← match PyDict.get? data "actions" with
    | none => Except.error "actions field required"
    | some a => validateDictList a "actions"
  .ok ⟨triggers, conditions, actions⟩

/-- SceneParser.parse: run the pydantic model validation and re-raise any
ValidationError as SceneDefinitionError with the cause appended. -/
def SceneParser.parse (definition_data : PyDict) : Except ControllerError SceneDefinition :=
  match SceneDefinition.validate definition_data with
  | .ok sd => .ok sd
  | .error e => .error (.sceneDefinitionError ("Invalid scene definition: " ++ e))

/-- SceneParser.validate_trigger: a trigger needs a type key; then
device_state requires device_id and condition, time requires cron,
manual requires nothing, anything else is invalid. -/
def SceneParser.validate_trigger (trigger : PyDict) : Bool :=
  if !PyDict.hasKey trigger "type" then false
  else
    let trigger_type := PyDict.getD trigger "type" .null
    if pyEq trigger_type (.str "device_state") then
      PyDict.hasKey trigger "device_id" && PyDict.hasKey trigger "condition"
    else if pyEq trigger_type (.str "time") then PyDict.hasKey trigger "cron"
    else if pyEq trigger_type (.str "manual") then true
    else false

/-- SceneParser.validate_action: an action needs a type key; then
device_control requires device_id and command, delay requires seconds,
anything else is invalid. -/
def SceneParser.validate_action (action : PyDict) : Bool :=
  if !PyDict.hasKey action "type" then false
  else
    let action_type := PyDict.getD action "type" .null
    if pyEq action_type (.str "device_control") then
      PyDict.hasKey action "device_id" && PyDict.hasKey action "command"
    else if pyEq action_type (.str "delay") then PyDict.hasKey action "seconds"
    else false

/-- An APScheduler cron job as added by SceneScheduler._add_cron_job:
the five cron fields and the scene passed as the callback argument
(the callback function itself carries no job-store state and is not
modelled; jobs are identified and replaced purely by job id). -/
structure CronJob where
  minute : String
  hour : String
  day : String
  month : String
  day_of_week : String
  args : Scene

/-- The scheduler state: the APScheduler in-memory job store keyed by
job id, and the internal _job_map from scene id to job id. -/
structure SchedState where
  jobs : List (String × CronJob)
  job_map : List (String × String)

/-- Modelled from the spec: APScheduler CronTrigger field acceptance is
code of a third-party library not in this repository; the spec says the
scheduler parses a 5-field cron expression and a malformed expression is
reported and skipped.  A field is modelled as acceptable when it is the
wildcard or a (nonempty) digit string. -/
def cronFieldOk (s : String) : Bool :=
  s == "*" || ((s != "") && s.data.all Char.isDigit)

/-- add_job with replace_existing=True on the in-memory store: replace
the job in place when the id exists, append otherwise. -/
def insertReplace {α : Type} (xs : List (String × α)) (k : String) (v : α) : List (String × α) :=
  if xs.any (fun p => p.1 == k) then
    xs.map (fun p => if p.1 == k then (k, v) else p)
  else xs ++ [(k, v)]

/-- The body of _add_cron_job after cron_expr.split(): a split with
other than 5 fields is reported and skipped; a CronTrigger rejection of
a field is swallowed by the try; otherwise the job is added under the id
scene_<scene_id> with replace_existing and the _job_map entry is set. -/
def addJobParts (scene_id : String) (scene : Scene) (st : SchedState) : List String → SchedState
  | [minute, hour, day, month, day_of_week] =>
    if cronFieldOk minute && cronFieldOk hour && cronFieldOk day
        && cronFieldOk month && cronFieldOk day_of_week then
      { jobs := insertReplace st.jobs ("scene_" ++ scene_id)
          ⟨minute, hour, day, month, day_of_week, scene⟩,
        job_map := insertReplace st.job_map scene_id ("scene_" ++ scene_id) }
    else st
  | _ => st

/-- SceneScheduler._add_cron_job: a non-string cron expression raises on
.split() inside the try and is swallowed, leaving the state unchanged;
a string is split on whitespace and handled by addJobParts. -/
def SceneScheduler.add_cron_job (scene_id : String) (cron_expr : PyVal) (scene : Scene)
    (st : SchedState) : SchedState :=
  match cron_expr with
  | .str s => addJobParts scene_id scene st (pySplitWs s)
  | _ => st

/-- SceneScheduler.unregister_scene: look the scene up in _job_map; a
missing or falsy job id is a no-op; remove_job raising (job id not in
the store) is swallowed, leaving the stale map entry; otherwise both the
job and the map entry are removed. -/
def SceneScheduler.unregister_scene (scene_id : String) (st : SchedState) : SchedState :=
  match st.job_map.find? (fun p => p.1 == scene_id) with
  | some (_, job_id) =>
    if job_id != "" then
      if st.jobs.any (fun p => p.1 == job_id) then
        { jobs := st.jobs.filter (fun p => p.1 != job_id),
          job_map := st.job_map.filter (fun p => p.1 != scene_id) }
      else st
    else st
  | none => st

/-- One iteration of the register_scene trigger loop: a trigger whose
type tag is time and whose cron value is truthy goes to _add_cron_job. -/
def SceneScheduler.registerStep (scene : Scene) (st : SchedState) (trigger : PyDict) : SchedState :=
  if pyEq (PyDict.getD trigger "type" .null) (.str "time") then
    if pyTruthy (PyDict.getD trigger "cron" .null) then
      SceneScheduler.add_cron_job scene.id (PyDict.getD trigger "cron" .null) scene st
    else st
  else st

/-- SceneScheduler.register_scene: unregister any existing job for the
scene id, then walk the definition's triggers adding a cron job for each
time trigger. -/
def SceneScheduler.register_scene (scene : Scene) (st : SchedState) : SchedState :=
  scene.definition.triggers.foldl (SceneScheduler.registerStep scene)
    (SceneScheduler.unregister_scene scene.id st)

/-- The job contributed by a list of split cron fields: some job exactly
for 5 acceptable fields. -/
def cronJobParts (scene : Scene) : List String → Option CronJob
  | [minute, hour, day, month, day_of_week] =>
    if cronFieldOk minute && cronFieldOk hour && cronFieldOk day
        && cronFieldOk month && cronFieldOk day_of_week then
      some ⟨minute, hour, day, month, day_of_week, scene⟩
    else none
  | _ => none

/-- The cron job a cron expression value contributes when accepted by
_add_cron_job: some job exactly when the expression is a string that
splits into 5 acceptable fields. -/
def cronJobOf (cron_expr : PyVal) (scene : Scene) : Option CronJob :=
  match cron_expr with
  | .str s => cronJobParts scene (pySplitWs s)
  | _ => none

/-- The cron job a single trigger dict contributes when registered:
some job exactly when the trigger has the time tag and a truthy cron
expression accepted by _add_cron_job. -/
def validCronOfTrigger (trigger : PyDict) (scene : Scene) : Option CronJob :=
  if pyEq (PyDict.getD trigger "type" .null) (.str "time") then
    if pyTruthy (PyDict.getD trigger "cron" .null) then
      cronJobOf (PyDict.getD trigger "cron" .null) scene
    else none
  else none

/-- The job left standing by the register loop: the last trigger in the
list contributing a valid cron job, if any. -/
def lastValidJob (scene : Scene) : List PyDict → Option CronJob
  | [] => none
  | t :: ts =>
    match lastValidJob scene ts with
    | some j => some j
    | none => validCronOfTrigger t scene

/-- ExecutionResult (executor.py): status is one of success, failed,
skipped; executed_at is the wall clock at construction. -/
structure ExecutionResult where
  status : String
  scene_id : String
  message : Option String
  executed_at : TimeHM

/-- The observable outcome of execute_scene: the returned result, the
device-state store after the run (the executor only ever reads it), the
HAL control_device commands successfully issued in order, and the delays
slept in order. -/
structure ExecOutcome where
  result : ExecutionResult
  store : List (String × DeviceState)
  sent : List (PyVal × PyVal)
  slept : List PyVal

/-- SceneExecutor._extract_device_ids: collect device_id from
device_state triggers, from device_state condition items and from
device_control actions; a tagged entry missing device_id raises
KeyError.  The Python set is modelled as an insertion-ordered
deduplicated list (deduplication by Python equality). -/
def SceneExecutor.extract_device_ids (scene : Scene) : Except String (List PyVal) := do
  let addId := fun (acc : List PyVal) (v : PyVal) =>
    if acc.any (fun w => pyEq v w) then acc else acc ++ [v]
  let ids ← scene.definition.triggers.foldlM (fun acc trigger =>
    if pyEq (PyDict.getD trigger "type" .null) (.str "device_state") then
      match PyDict.get? trigger "device_id" with
      | some did => Except.ok (addId acc did)
      | none => Except.error "KeyError: device_id"
    else Except.ok acc) []
  let ids ← match scene.definition.conditions with
    | none => Except.ok ids
    | some g => g.items.foldlM (fun acc item =>
        if pyEq (PyDict.getD item "type" .null) (.str "device_state") then
          match PyDict.get? item "device_id" with
          | some did => Except.ok (addId acc did)
          | none => Except.error "KeyError: device_id"
        else Except.ok acc) ids
  scene.definition.actions.foldlM (fun acc action =>
    if pyEq (PyDict.getD action "type" .null) (.str "device_control") then
      match PyDict.get? action "device_id" with
      | some did => Except.ok (addId acc did)
      | none => Except.error "KeyError: device_id"
    else Except.ok acc) ids

/-- SceneExecutor._prepare_context: read the cached state of every
referenced device from the state manager, keeping only devices with a
(truthy) cached state, and pack the context dict. -/
def SceneExecutor.prepare_context (scene : Scene) (store : List (String × DeviceState))
    (now : TimeHM) : Except String Context := do
  let device_ids ← SceneExecutor.extract_device_ids scene
  let device_states := device_ids.foldl (fun acc did =>
    match store.find? (fun p => pyEq did (.str p.1)) with
    | some (_, state) => acc ++ [(did, state)]
    | none => acc) []
  .ok ⟨device_states, scene.id, now⟩

/-- SceneExecutor._execute_action for one action dict, threading the
effect log: device_control requires device_id and command (KeyError
otherwise) and wraps a failing HAL call in SceneExecutionError naming
the device; delay sleeps for the seconds value (defaulting to 0; a
non-number raises inside asyncio.sleep); an unrecognized type tag raises
SceneExecutionError.  Errors carry str(exception). -/
def SceneExecutor.execute_action (hal : PyVal → PyVal → Except String Unit)
    (action : PyDict) (sent : List (PyVal × PyVal)) (slept : List PyVal) :
    Except String (List (PyVal × PyVal) × List PyVal) :=
  let action_type := PyDict.getD action "type" .null
  if pyEq action_type (.str "device_control") then
    match PyDict.get? action "device_id" with
    | none => .error "KeyError: device_id"
    | some device_id =>
      match PyDict.get? action "command" with
      | none => .error "KeyError: command"
      | some command =>
        match hal device_id command with
        | .ok _ => .ok (sent ++ [(device_id, command)], slept)
        | .error e => .error ("Scene execution failed: device_control, reason: Failed to control device "
            ++ pyStr device_id ++ ": " ++ e)
  else if pyEq action_type (.str "delay") then
    match PyDict.getD action "seconds" (.int 0) with
    | .int n => .ok (sent, slept ++ [.int n])
    | .bool b => .ok (sent, slept ++ [.bool b])
    | other => .error ("sleep length must be a number, not " ++ pyTypeName other)
  else .error ("Scene execution failed: unknown, reason: Unknown action type: " ++ pyStr action_type)

/-- The action loop of execute_scene: run actions strictly in sequence,
stopping at the first failure and keeping the effects already
produced. -/
def SceneExecutor.run_actions (hal : PyVal → PyVal → Except String Unit) :
    List PyDict → List (PyVal × PyVal) → List PyVal →
    Except String Unit × List (PyVal × PyVal) × List PyVal
  | [], sent, slept => (.ok (), sent, slept)
  | action :: rest, sent, slept =>
    match SceneExecutor.execute_action hal action sent slept with
    | .ok (sent2, slept2) => SceneExecutor.run_actions hal rest sent2 slept2
    | .error e => (.error e, sent, slept)

/-- The condition data execute_scene hands to the evaluator:
model_dump() of the definition's conditions when present, None
otherwise. -/
def conditionDataOf (scene : Scene) : Option PyDict :=
  scene.definition.conditions.map ConditionGroupModel.model_dump

/-- SceneExecutor.execute_scene: build the context, evaluate the
conditions, skip when not met, otherwise run the actions in order; any
exception raised anywhere inside is caught and turned into a failed
result carrying str(exception).  The triggered_by argument is accepted
and unused, as in the source. -/
def SceneExecutor.execute_scene (hal : PyVal → PyVal → Except String Unit) (scene : Scene)
    (store : List (String × DeviceState)) (now : TimeHM) (triggered_by : String) : ExecOutcome :=
  match SceneExecutor.prepare_context scene store now with
  | .error e => ⟨⟨"failed", scene.id, some e, now⟩, store, [], []⟩
  | .ok context =>
    match ConditionEvaluator.evaluate (conditionDataOf scene) context now with
    | .error e => ⟨⟨"failed", scene.id, some e, now⟩, store, [], []⟩
    | .ok false => ⟨⟨"skipped", scene.id, some "Conditions not met", now⟩, store, [], []⟩
    | .ok true =>
      match SceneExecutor.run_actions hal scene.definition.actions [] [] with
      | (.ok _, sent, slept) =>
        ⟨⟨"success", scene.id,
          some ("Executed " ++ toString scene.definition.actions.length ++ " actions"), now⟩,
          store, sent, slept⟩
      | (.error e, sent, slept) => ⟨⟨"failed", scene.id, some e, now⟩, store, sent, slept⟩

/-! Concrete fixtures used by witnesses and counterexamples. -/

/-- An empty evaluation context. -/
def emptyCtx : Context := ⟨[], "s", ⟨0, 0⟩⟩

/-- A context holding device d1 with plain state on and no attributes. -/
def ctxD1On : Context := ⟨[(.str "d1", ⟨"on", [], 0⟩)], "s", ⟨0, 0⟩⟩

/-- A device_state leaf condition dict: d1 state equals open. -/
def itemD1Open : PyVal :=
  .dict [("type", .str "device_state"), ("device_id", .str "d1"),
    ("condition", .dict [("operator", .str "eq"), ("attribute", .str "state"), ("value", .str "open")])]

/-- A group-shaped child dict (operator/items, no type tag). -/
def nestedGroupChild : PyVal :=
  .dict [("operator", .str "or"), ("items", .list [])]

/-- A scene with two time triggers carrying distinct valid cron
expressions. -/
def sceneTwoTimers : Scene :=
  { id := "s1", name := "two timers",
    definition := ⟨[[("type", .str "time"), ("cron", .str "0 8 * * *")],
                    [("type", .str "time"), ("cron", .str "0 20 * * *")]], none, []⟩ }

/-- The cached store for the skip scenario: d1 is closed. -/
def storeD1Closed : List (String × DeviceState) := [("d1", ⟨"closed", [], 0⟩)]

/-- The skip-scenario scene: conditions require d1 to be open, one
device_control action. -/
def sceneSkip : Scene :=
  { id := "s8", name := "cond scene",
    definition := ⟨[],
      some ⟨"and", [[("type", .str "device_state"), ("device_id", .str "d1"),
        ("condition", .dict [("operator", .str "eq"), ("attribute", .str "state"), ("value", .str "open")])]]⟩,
      [[("type", .str "device_control"), ("device_id", .str "d1"), ("command", .dict [("state", .str "on")])]]⟩ }

/-- The context prepared for sceneSkip over storeD1Closed. -/
def ctxSkip : Context := ⟨[(.str "d1", ⟨"closed", [], 0⟩)], "s8", ⟨10, 0⟩⟩

/-- A HAL stub that always accepts. -/
def halOk : PyVal → PyVal → Except String Unit := fun _ _ => .ok ()

/-- A HAL stub failing exactly on device d2. -/
def halFailD2 : PyVal → PyVal → Except String Unit := fun d _ =>
  if pyEq d (.str "d2") then .error "CommunicationError: device unreachable" else .ok ()

/-- A device_control action dict for the given device id. -/
def ctlAction (i : String) : PyDict :=
  [("type", .str "device_control"), ("device_id", .str i), ("command", .dict [("state", .str "on")])]

/-- A three-action sequence whose middle action targets d2. -/
def sceneSeq : Scene :=
  { id := "s7", name := "seq",
    definition := ⟨[], none, [ctlAction "d1", ctlAction "d2", ctlAction "d3"]⟩ }

/-- A scene whose conditions contain a child with an unknown type tag. -/
def sceneBadCond : Scene :=
  { id := "sx", name := "bad cond",
    definition := ⟨[], some ⟨"and", [[("type", .str "bogus")]]⟩, []⟩ }

/-- The operator strings recognized by DeviceStateCondition._compare. -/
def recognizedOp (op : PyVal) : Bool :=
  pyEq op (.str "eq") || pyEq op (.str "ne") || pyEq op (.str "gt") ||
  pyEq op (.str "ge") || pyEq op (.str "lt") || pyEq op (.str "le")

/-- Association-list lookup by string key (dict-read of the job store). -/
def lookupA {α : Type} (xs : List (String × α)) (k : String) : Option α :=
  (xs.find? (fun p => p.1 == k)).map (fun p => p.2)

/-- The scheduler state carries no entry for the scene: no _job_map
binding for its id and no stored job under its job id. -/
def SchedState.cleanFor (scene_id : String) (st : SchedState) : Prop :=
  st.job_map.find? (fun p => p.1 == scene_id) = none ∧
  st.jobs.any (fun p => p.1 == "scene_" ++ scene_id) = false

/-! Helper lemmas. -/

theorem compare_unknown_op (a b op : PyVal) (h : recognizedOp op = false) :
    DeviceStateCondition.compare a b op = .ok false := by
  unfold recognizedOp at h
  simp only [Bool.or_eq_false_iff] at h
  obtain ⟨⟨⟨⟨⟨h1, h2⟩, h3⟩, h4⟩, h5⟩, h6⟩ := h
  unfold DeviceStateCondition.compare
  simp [h1, h2, h3, h4, h5, h6]

theorem validateDictListAux_dicts (field : String) (xs : List PyDict) :
    validateDictListAux field (xs.map PyVal.dict) = .ok xs := by
  induction xs with
  | nil => rfl
  | cons a rest ih =>
    simp only [List.map_cons]
    unfold validateDictListAux
    rw [ih]
    rfl

theorem validateDictList_dicts (field : String) (xs : List PyDict) :
    validateDictList (.list (xs.map PyVal.dict)) field = .ok xs :=
  validateDictListAux_dicts field xs

/-! Claim theorems. -/

/-- C1 counterexample: parse accepts a definition whose single action has
an unrecognized type tag (pydantic validates actions only as a list of
dicts), even though validate_action rejects that action; so parse does
not fail whenever an action lacks a recognized type tag. -/
theorem SceneParser.parse_accepts_untagged_actions :
    SceneParser.parse [("actions", .list [.dict [("type", .str "bogus")]])]
      = .ok ⟨[], none, [[("type", .str "bogus")]]⟩ ∧
    SceneParser.validate_action [("type", .str "bogus")] = false :=
  ⟨rfl, rfl⟩

/-- C1 (amended): for every input dict, parse either returns a
SceneDefinition or fails with SceneDefinitionError carrying a
human-readable cause (never another fault type); but it validates only
the structural model shape, accepting every actions list made of dicts
regardless of type tags or tag-required fields. -/
theorem SceneParser.parse_typed_error_only :
    (∀ data : PyDict, (∃ sd, SceneParser.parse data = .ok sd) ∨
        (∃ m, SceneParser.parse data = .error (.sceneDefinitionError m))) ∧
    (∀ acts : List PyDict,
        SceneParser.parse [("actions", .list (acts.map PyVal.dict))] = .ok ⟨[], none, acts⟩) := by
  constructor
  · intro data
    cases h : SceneDefinition.validate data with
    | ok sd => exact .inl ⟨sd, by unfold SceneParser.parse; rw [h]⟩
    | error e =>
      exact .inr ⟨"Invalid scene definition: " ++ e, by unfold SceneParser.parse; rw [h]⟩
  · intro acts
    have hv : SceneDefinition.validate [("actions", .list (acts.map PyVal.dict))] =
        (do
          let actions ← validateDictList (.list (acts.map PyVal.dict)) "actions"
          Except.ok ⟨[], none, actions⟩) := rfl
    unfold SceneParser.parse
    rw [hv, validateDictList_dicts]
    rfl

/-- C4: a device_state leaf fails closed: a device id absent from the
context evaluates to false without faulting; a resolved attribute
missing from the device attributes evaluates to false; an unrecognized
comparison operator evaluates to false rather than throwing. -/
theorem DeviceStateCondition.evaluate_fail_closed :
    (∀ did op attr v ctx, ctx.device_states.find? (fun p => pyEq did p.1) = none →
        DeviceStateCondition.evaluate did op attr v ctx = .ok false) ∧
    (∀ did op attr v ctx d ds,
        ctx.device_states.find? (fun p => pyEq did p.1) = some (d, ds) →
        pyEq attr (.str "state") = false → pyGetByVal ds.attributes attr = none →
        DeviceStateCondition.evaluate did op attr v ctx = .ok false) ∧
    (∀ did op attr v ctx, recognizedOp op = false →
        DeviceStateCondition.evaluate did op attr v ctx = .ok false) := by
  refine ⟨?_, ?_, ?_⟩
  · intro did op attr v ctx h
    unfold DeviceStateCondition.evaluate
    rw [h]
  · intro did op attr v ctx d ds hf hattr hmiss
    unfold DeviceStateCondition.evaluate
    rw [hf]
    simp [hattr, hmiss]
  · intro did op attr v ctx h
    unfold DeviceStateCondition.evaluate
    cases hf : ctx.device_states.find? (fun p => pyEq did p.1) with
    | none => rfl
    | some p =>
      obtain ⟨d, ds⟩ := p
      by_cases ha : pyEq attr (.str "state") = true
      · simp [ha, compare_unknown_op _ _ _ h]
      · simp only [Bool.not_eq_true] at ha
        simp only [ha, Bool.false_eq_true, if_false]
        cases hm : pyGetByVal ds.attributes attr with
        | none => simp
        | some w => cases w <;> simp [compare_unknown_op _ _ _ h]

/-- C4 witness: the three fail-closed behaviours at concrete inputs:
an absent device, a missing attribute, an unrecognized operator. -/
theorem DeviceStateCondition.evaluate_fail_closed_witness :
    DeviceStateCondition.evaluate (.str "dx") (.str "eq") (.str "state") (.str "on") emptyCtx = .ok false ∧
    DeviceStateCondition.evaluate (.str "d1") (.str "eq") (.str "brightness") (.int 50) ctxD1On = .ok false ∧
    DeviceStateCondition.evaluate (.str "d1") (.str "contains") (.str "state") (.str "on") ctxD1On = .ok false := by
  refine ⟨?_, ?_, ?_⟩
  · exact DeviceStateCondition.evaluate_fail_closed.1 (.str "dx") (.str "eq") (.str "state")
      (.str "on") emptyCtx rfl
  · exact DeviceStateCondition.evaluate_fail_closed.2.1 (.str "d1") (.str "eq") (.str "brightness")
      (.int 50) ctxD1On (.str "d1") ⟨"on", [], 0⟩ rfl rfl rfl
  · exact DeviceStateCondition.evaluate_fail_closed.2.2 (.str "d1") (.str "contains") (.str "state")
      (.str "on") ctxD1On rfl

/-- C5: a condition group over the empty child list follows the all/any
identities: and of nothing is true, or of nothing is false, for every
context and clock. -/
theorem ConditionGroup.evaluate_empty_identities (ctx : Context) (now : TimeHM) :
    ConditionGroup.evaluate "and" [] ctx now = .ok true ∧
    ConditionGroup.evaluate "or" [] ctx now = .ok false :=
  ⟨rfl, rfl⟩

/-- C8: when the prepared context makes the conditions evaluate to
false, execute_scene returns skipped with an explanatory message, sends
no HAL command, takes no delay and leaves the device-state store
unchanged. -/
theorem SceneExecutor.execute_scene_skips_without_effects
    (hal : PyVal → PyVal → Except String Unit) (scene : Scene)
    (store : List (String × DeviceState)) (now : TimeHM) (tb : String) (ctx : Context)
    (hctx : SceneExecutor.prepare_context scene store now = .ok ctx)
    (hcond : ConditionEvaluator.evaluate (conditionDataOf scene) ctx now = .ok false) :
    SceneExecutor.execute_scene hal scene store now tb =
      ⟨⟨"skipped", scene.id, some "Conditions not met", now⟩, store, [], []⟩ := by
  unfold SceneExecutor.execute_scene
  simp only [hctx, hcond]

/-- C8 witness: the spec scenario: conditions require d1 open, the cache
has d1 closed; the run is skipped with no effects. -/
theorem SceneExecutor.execute_scene_skips_without_effects_witness :
    SceneExecutor.execute_scene halOk sceneSkip storeD1Closed ⟨10, 0⟩ "auto" =
      ⟨⟨"skipped", "s8", some "Conditions not met", ⟨10, 0⟩⟩, storeD1Closed, [], []⟩ := by
  exact SceneExecutor.execute_scene_skips_without_effects halOk sceneSkip storeD1Closed
    ⟨10, 0⟩ "auto" ctxSkip rfl rfl

/-- C3 counterexample: a group whose first child is itself a group (an
operator/items dict with no type tag) faults with ValueError instead of
evaluating the child, so group evaluation is not total on the
ConditionNode trees the data model admits. -/
theorem ConditionGroup.evaluate_nested_group_faults :
    ConditionGroup.evaluate "and" [nestedGroupChild] emptyCtx ⟨0, 0⟩ =
      .error "Unknown condition type: None" := rfl

/-- C3 (amended): children that the factory can build (recognized leaf
type tags) are each evaluated recursively against the same context and
combined with and (all true) or or (any true), an unknown group operator
yielding false; but a child that is itself a group — or any child
without a recognized type tag — raises ValueError instead of being
evaluated. -/
theorem ConditionGroup.evaluate_children_combination (ctx : Context) (now : TimeHM) :
    (∀ op items rs, ConditionGroup.evalChildren ctx now items = .ok rs →
        ConditionGroup.evaluate op items ctx now =
          .ok (if op = "and" then rs.all id else if op = "or" then rs.any id else false)) ∧
    (∀ op kvs rest, PyDict.get? kvs "type" = none →
        ConditionGroup.evaluate op (.dict kvs :: rest) ctx now =
          .error "Unknown condition type: None") := by
  constructor
  · intro op items rs h
    unfold ConditionGroup.evaluate
    rw [h]
    by_cases h1 : op = "and"
    · subst h1; simp
    · by_cases h2 : op = "or"
      · subst h2; simp
      · simp [h1, h2]
  · intro op kvs rest h
    have hc : ConditionFactory.create (.dict kvs) = .error "Unknown condition type: None" := by
      unfold ConditionFactory.create
      have hg : PyDict.getD kvs "type" .null = .null := by
        unfold PyDict.getD; rw [h]; rfl
      simp only [hg]
      rfl
    unfold ConditionGroup.evaluate ConditionGroup.evalChildren
    rw [hc]
    rfl

/-- C3 witness: an unknown group operator over an evaluable child list
yields false; a group child among the children faults. -/
theorem ConditionGroup.evaluate_children_combination_witness :
    ConditionGroup.evaluate "xor" [itemD1Open] emptyCtx ⟨0, 0⟩ = .ok false ∧
    ConditionGroup.evaluate "or" [nestedGroupChild, itemD1Open] emptyCtx ⟨0, 0⟩ =
      .error "Unknown condition type: None" := by
  constructor
  · have h := (ConditionGroup.evaluate_children_combination emptyCtx ⟨0, 0⟩).1
      "xor" [itemD1Open] [false] rfl
    simpa using h
  · exact (ConditionGroup.evaluate_children_combination emptyCtx ⟨0, 0⟩).2 "or"
      [("operator", .str "or"), ("items", .list [])] [itemD1Open] rfl

theorem TimeHM.leb_iff_toMinutes (a b : TimeHM) (ha : a.minute < 60) (hb : b.minute < 60) :
    TimeHM.leb a b = true ↔ a.toMinutes ≤ b.toMinutes := by
  unfold TimeHM.leb TimeHM.toMinutes
  simp only [Bool.or_eq_true, Bool.and_eq_true, Nat.blt_eq, Nat.ble_eq, beq_iff_eq]
  omega

/-- C6: against the minutes-since-midnight reading of in-range clock
times, a time_range holds on the same-day interval (inclusive both
ends) when start is at most end, and on the midnight-wrapping condition
(now at least start, or now at most end) otherwise. -/
theorem TimeRangeCondition.evaluate_interval_spec (s e n : TimeHM)
    (hs : s.minute < 60) (he : e.minute < 60) (hn : n.minute < 60) :
    TimeRangeCondition.evaluate s e n = true ↔
      (if s.toMinutes ≤ e.toMinutes then s.toMinutes ≤ n.toMinutes ∧ n.toMinutes ≤ e.toMinutes
       else s.toMinutes ≤ n.toMinutes ∨ n.toMinutes ≤ e.toMinutes) := by
  have h0 := TimeHM.leb_iff_toMinutes s e hs he
  have h1 := TimeHM.leb_iff_toMinutes s n hs hn
  have h2 := TimeHM.leb_iff_toMinutes n e hn he
  by_cases hc : TimeHM.leb s e = true
  · rw [TimeRangeCondition.evaluate, if_pos hc, if_pos (h0.mp hc)]
    simp only [Bool.and_eq_true]
    exact and_congr h1 h2
  · rw [TimeRangeCondition.evaluate, if_neg hc, if_neg (fun hle => hc (h0.mpr hle))]
    simp only [Bool.or_eq_true]
    exact or_congr h1 h2

/-- C6 witness: the 22:00-06:00 range holds at 23:30 and not at
12:00. -/
theorem TimeRangeCondition.evaluate_interval_spec_witness :
    TimeRangeCondition.evaluate ⟨22, 0⟩ ⟨6, 0⟩ ⟨23, 30⟩ = true ∧
    TimeRangeCondition.evaluate ⟨22, 0⟩ ⟨6, 0⟩ ⟨12, 0⟩ = false := by
  constructor
  · exact (TimeRangeCondition.evaluate_interval_spec ⟨22, 0⟩ ⟨6, 0⟩ ⟨23, 30⟩
      (by decide) (by decide) (by decide)).mpr (by decide)
  · have h := TimeRangeCondition.evaluate_interval_spec ⟨22, 0⟩ ⟨6, 0⟩ ⟨12, 0⟩
      (by decide) (by decide) (by decide)
    cases hb : TimeRangeCondition.evaluate ⟨22, 0⟩ ⟨6, 0⟩ ⟨12, 0⟩ with
    | false => rfl
    | true => exact absurd (h.mp hb) (by decide)

theorem run_actions_cons (hal : PyVal → PyVal → Except String Unit)
    (a : PyDict) (rest : List PyDict) (sent : List (PyVal × PyVal)) (slept : List PyVal) :
    SceneExecutor.run_actions hal (a :: rest) sent slept =
      (match SceneExecutor.execute_action hal a sent slept with
       | .ok (sent2, slept2) => SceneExecutor.run_actions hal rest sent2 slept2
       | .error e => (.error e, sent, slept)) := rfl

theorem run_actions_append (hal : PyVal → PyVal → Except String Unit)
    (xs ys : List PyDict) (sent : List (PyVal × PyVal)) (slept : List PyVal) :
    SceneExecutor.run_actions hal (xs ++ ys) sent slept =
      (match SceneExecutor.run_actions hal xs sent slept with
       | (.ok _, s2, d2) => SceneExecutor.run_actions hal ys s2 d2
       | (.error e, s2, d2) => (.error e, s2, d2)) := by
  induction xs generalizing sent slept with
  | nil => rfl
  | cons a rest ih =>
    rw [List.cons_append, run_actions_cons, run_actions_cons]
    cases ha : SceneExecutor.execute_action hal a sent slept with
    | ok p =>
      obtain ⟨s2, d2⟩ := p
      exact ih s2 d2
    | error e => rfl

/-- C7: when the prepared context meets the conditions, the actions
before a failing device_control succeed, and that action's HAL call
raises, execute_scene returns failed with a message naming the failing
device and carrying the causing fault text; no action after the failing
one runs (the effect log stops at the prefix) and the effects already
produced are kept, with the store untouched. -/
theorem SceneExecutor.execute_scene_aborts_on_action_failure
    (hal : PyVal → PyVal → Except String Unit) (scene : Scene)
    (store : List (String × DeviceState)) (now : TimeHM) (tb : String) (ctx : Context)
    (pre rest : List PyDict) (a : PyDict) (did cmd : PyVal) (e : String)
    (sent0 : List (PyVal × PyVal)) (slept0 : List PyVal)
    (hctx : SceneExecutor.prepare_context scene store now = .ok ctx)
    (hcond : ConditionEvaluator.evaluate (conditionDataOf scene) ctx now = .ok true)
    (hacts : scene.definition.actions = pre ++ a :: rest)
    (hpre : SceneExecutor.run_actions hal pre [] [] = (.ok (), sent0, slept0))
    (htype : PyDict.getD a "type" .null = .str "device_control")
    (hdid : PyDict.get? a "device_id" = some did)
    (hcmd : PyDict.get? a "command" = some cmd)
    (hhal : hal did cmd = .error e) :
    SceneExecutor.execute_scene hal scene store now tb =
      ⟨⟨"failed", scene.id,
        some ("Scene execution failed: device_control, reason: Failed to control device "
          ++ pyStr did ++ ": " ++ e), now⟩,
       store, sent0, slept0⟩ := by
  have hact : SceneExecutor.execute_action hal a sent0 slept0 =
      .error ("Scene execution failed: device_control, reason: Failed to control device "
        ++ pyStr did ++ ": " ++ e) := by
    unfold SceneExecutor.execute_action
    simp [pyEq, htype, hdid, hcmd, hhal]
  unfold SceneExecutor.execute_scene
  simp only [hctx, hcond, hacts]
  rw [run_actions_append]
  simp only [hpre]
  unfold SceneExecutor.run_actions
  simp only [hact]

/-- C7 witness: the three-action sequence with the middle HAL call
failing on d2: failed result naming d2, first command kept, third never
sent. -/
theorem SceneExecutor.execute_scene_aborts_on_action_failure_witness :
    SceneExecutor.execute_scene halFailD2 sceneSeq [] ⟨10, 0⟩ "auto" =
      ⟨⟨"failed", "s7",
        some "Scene execution failed: device_control, reason: Failed to control device d2: CommunicationError: device unreachable",
        ⟨10, 0⟩⟩,
       [], [(.str "d1", .dict [("state", .str "on")])], []⟩ := by
  exact SceneExecutor.execute_scene_aborts_on_action_failure halFailD2 sceneSeq [] ⟨10, 0⟩
    "auto" ⟨[], "s7", ⟨10, 0⟩⟩ [ctlAction "d1"] [ctlAction "d3"] (ctlAction "d2")
    (.str "d2") (.dict [("state", .str "on")]) "CommunicationError: device unreachable"
    [(.str "d1", .dict [("state", .str "on")])] []
    rfl rfl rfl rfl rfl rfl rfl rfl

/-- C10: execute_scene is total at its interface: the returned status is
always one of success, skipped, failed; a fault while building the
context, or while evaluating the conditions (for example an unknown
condition type tag), is converted into a failed result rather than
propagating. -/
theorem SceneExecutor.execute_scene_total_status
    (hal : PyVal → PyVal → Except String Unit) (scene : Scene)
    (store : List (String × DeviceState)) (now : TimeHM) (tb : String) :
    ((SceneExecutor.execute_scene hal scene store now tb).result.status = "success" ∨
     (SceneExecutor.execute_scene hal scene store now tb).result.status = "skipped" ∨
     (SceneExecutor.execute_scene hal scene store now tb).result.status = "failed") ∧
    (∀ e, SceneExecutor.prepare_context scene store now = .error e →
        SceneExecutor.execute_scene hal scene store now tb =
          ⟨⟨"failed", scene.id, some e, now⟩, store, [], []⟩) ∧
    (∀ ctx e, SceneExecutor.prepare_context scene store now = .ok ctx →
        ConditionEvaluator.evaluate (conditionDataOf scene) ctx now = .error e →
        SceneExecutor.execute_scene hal scene store now tb =
          ⟨⟨"failed", scene.id, some e, now⟩, store, [], []⟩) := by
  refine ⟨?_, ?_, ?_⟩
  · unfold SceneExecutor.execute_scene
    split
    · exact .inr (.inr rfl)
    · split
      · exact .inr (.inr rfl)
      · exact .inr (.inl rfl)
      · split
        · exact .inl rfl
        · exact .inr (.inr rfl)
  · intro e h
    unfold SceneExecutor.execute_scene
    simp only [h]
  · intro ctx e h1 h2
    unfold SceneExecutor.execute_scene
    simp only [h1, h2]

/-- C10 witness: a scene whose conditions hold a child with an unknown
type tag produces a failed result carrying the ValueError text. -/
theorem SceneExecutor.execute_scene_total_status_witness :
    SceneExecutor.execute_scene halOk sceneBadCond [] ⟨10, 0⟩ "auto" =
      ⟨⟨"failed", "sx", some "Unknown condition type: bogus", ⟨10, 0⟩⟩, [], [], []⟩ := by
  exact (SceneExecutor.execute_scene_total_status halOk sceneBadCond [] ⟨10, 0⟩ "auto").2.2
    ⟨[], "sx", ⟨10, 0⟩⟩ "Unknown condition type: bogus" rfl rfl

/-! Scheduler lemmas for the registration claims. -/

theorem scene_job_id_ne_empty_prop (s : String) : "scene_" ++ s ≠ "" := by
  intro hc
  have h := congrArg String.data hc
  rw [String.data_append] at h
  have h2 : Char.ofNat 115 :: ("cene_".data ++ s.data) = ([] : List Char) := h
  exact List.noConfusion h2

theorem scene_job_id_ne_empty (s : String) : (("scene_" ++ s) != "") = true := by
  simp only [bne_iff_ne, ne_eq]
  exact scene_job_id_ne_empty_prop s

theorem any_eq_false_of_find?_eq_none {α : Type} (xs : List (String × α)) (k : String)
    (h : xs.find? (fun p => p.1 == k) = none) : xs.any (fun p => p.1 == k) = false := by
  rw [List.any_eq_false]
  intro x hx
  exact List.find?_eq_none.mp h x hx

theorem find?_eq_none_of_any_false {α : Type} (xs : List α) (p : α → Bool)
    (h : xs.any p = false) : xs.find? p = none := by
  rw [List.find?_eq_none]
  intro x hx
  exact List.any_eq_false.mp h x hx

theorem insertReplace_of_not_has {α : Type} (xs : List (String × α)) (k : String) (v : α)
    (h : xs.any (fun p => p.1 == k) = false) : insertReplace xs k v = xs ++ [(k, v)] := by
  unfold insertReplace
  rw [h]
  rfl

theorem map_keep_of_no_key {α : Type} (xs : List (String × α)) (k : String) (w : α)
    (h : xs.any (fun p => p.1 == k) = false) :
    (xs.map (fun p => if p.1 == k then (k, w) else p)) = xs := by
  induction xs with
  | nil => rfl
  | cons a rest ih =>
    simp only [List.any_cons, Bool.or_eq_false_iff] at h
    simp only [List.map_cons]
    rw [if_neg (fun hcon => Bool.false_ne_true (h.1 ▸ hcon)), ih h.2]

theorem filter_keep_of_no_key {α : Type} (xs : List (String × α)) (k : String)
    (h : xs.any (fun p => p.1 == k) = false) :
    xs.filter (fun p => p.1 != k) = xs := by
  induction xs with
  | nil => rfl
  | cons a rest ih =>
    simp only [List.any_cons, Bool.or_eq_false_iff] at h
    have hcond : (a.1 != k) = true := by rw [bne, h.1]; rfl
    simp only [List.filter_cons]
    rw [if_pos hcond, ih h.2]

theorem insertReplace_append_last {α : Type} (xs : List (String × α)) (k : String) (v w : α)
    (h : xs.any (fun p => p.1 == k) = false) :
    insertReplace (xs ++ [(k, v)]) k w = xs ++ [(k, w)] := by
  unfold insertReplace
  have hany : ((xs ++ [(k, v)]).any fun p => p.1 == k) = true := by simp
  rw [hany]
  simp only [if_true]
  rw [List.map_append, map_keep_of_no_key xs k w h]
  simp

theorem addJobParts_eq (scene_id : String) (scene : Scene) (st : SchedState)
    (parts : List String) :
    addJobParts scene_id scene st parts =
      (match cronJobParts scene parts with
       | none => st
       | some j => ⟨insertReplace st.jobs ("scene_" ++ scene_id) j,
                    insertReplace st.job_map scene_id ("scene_" ++ scene_id)⟩) := by
  match parts with
  | [] => rfl
  | [a] => rfl
  | [a, b] => rfl
  | [a, b, c] => rfl
  | [a, b, c, d] => rfl
  | [a, b, c, d, e] =>
    simp only [addJobParts, cronJobParts]
    cases hOk : (cronFieldOk a && cronFieldOk b && cronFieldOk c && cronFieldOk d
        && cronFieldOk e) with
    | true => rfl
    | false => rfl
  | a :: b :: c :: d :: e :: f :: tail => rfl

theorem add_cron_job_eq (scene_id : String) (cron_expr : PyVal) (scene : Scene) (st : SchedState) :
    SceneScheduler.add_cron_job scene_id cron_expr scene st =
      (match cronJobOf cron_expr scene with
       | none => st
       | some j => ⟨insertReplace st.jobs ("scene_" ++ scene_id) j,
                    insertReplace st.job_map scene_id ("scene_" ++ scene_id)⟩) := by
  cases cron_expr with
  | str s => exact addJobParts_eq scene_id scene st (pySplitWs s)
  | null => rfl
  | bool b => rfl
  | int n => rfl
  | list xs => rfl
  | dict kvs => rfl

theorem registerStep_eq (scene : Scene) (st : SchedState) (t : PyDict) :
    SceneScheduler.registerStep scene st t =
      (match validCronOfTrigger t scene with
       | none => st
       | some j => ⟨insertReplace st.jobs ("scene_" ++ scene.id) j,
                    insertReplace st.job_map scene.id ("scene_" ++ scene.id)⟩) := by
  unfold SceneScheduler.registerStep validCronOfTrigger
  cases h1 : pyEq (PyDict.getD t "type" .null) (.str "time") with
  | false => rfl
  | true =>
    cases h2 : pyTruthy (PyDict.getD t "cron" .null) with
    | false => rfl
    | true =>
      simp only [if_true]
      exact add_cron_job_eq scene.id (PyDict.getD t "cron" .null) scene st

theorem registerStep_eq_none (scene : Scene) (st : SchedState) (t : PyDict)
    (h : validCronOfTrigger t scene = none) :
    SceneScheduler.registerStep scene st t = st := by
  rw [registerStep_eq, h]

theorem registerStep_eq_some (scene : Scene) (st : SchedState) (t : PyDict) (j : CronJob)
    (h : validCronOfTrigger t scene = some j) :
    SceneScheduler.registerStep scene st t =
      ⟨insertReplace st.jobs ("scene_" ++ scene.id) j,
       insertReplace st.job_map scene.id ("scene_" ++ scene.id)⟩ := by
  rw [registerStep_eq, h]

theorem foldTriggers_appended (scene : Scene) (ts : List PyDict)
    (jobs0 : List (String × CronJob)) (map0 : List (String × String)) (j : CronJob)
    (hj : jobs0.any (fun p => p.1 == "scene_" ++ scene.id) = false)
    (hm : map0.any (fun p => p.1 == scene.id) = false) :
    ts.foldl (SceneScheduler.registerStep scene)
        ⟨jobs0 ++ [("scene_" ++ scene.id, j)], map0 ++ [(scene.id, "scene_" ++ scene.id)]⟩ =
      ⟨jobs0 ++ [("scene_" ++ scene.id, (lastValidJob scene ts).getD j)],
       map0 ++ [(scene.id, "scene_" ++ scene.id)]⟩ := by
  induction ts generalizing j with
  | nil => rfl
  | cons t ts ih =>
    rw [List.foldl_cons]
    cases hv : validCronOfTrigger t scene with
    | none =>
      rw [registerStep_eq_none _ _ _ hv, ih j]
      cases h2 : lastValidJob scene ts with
      | none => simp [lastValidJob, hv, h2]
      | some j2 => simp [lastValidJob, hv, h2]
    | some j2 =>
      rw [registerStep_eq_some _ _ _ _ hv]
      dsimp only
      rw [insertReplace_append_last _ _ _ _ hj, insertReplace_append_last _ _ _ _ hm]
      rw [ih j2]
      cases h2 : lastValidJob scene ts with
      | none => simp [lastValidJob, hv, h2]
      | some j3 => simp [lastValidJob, hv, h2]

theorem foldTriggers_clean (scene : Scene) (ts : List PyDict) (st0 : SchedState)
    (hj : st0.jobs.any (fun p => p.1 == "scene_" ++ scene.id) = false)
    (hm : st0.job_map.any (fun p => p.1 == scene.id) = false) :
    ts.foldl (SceneScheduler.registerStep scene) st0 =
      (match lastValidJob scene ts with
       | none => st0
       | some j => ⟨st0.jobs ++ [("scene_" ++ scene.id, j)],
                    st0.job_map ++ [(scene.id, "scene_" ++ scene.id)]⟩) := by
  induction ts with
  | nil => rfl
  | cons t ts ih =>
    rw [List.foldl_cons]
    cases hv : validCronOfTrigger t scene with
    | none =>
      rw [registerStep_eq_none _ _ _ hv, ih]
      cases h2 : lastValidJob scene ts with
      | none => simp [lastValidJob, hv, h2]
      | some j2 => simp [lastValidJob, hv, h2]
    | some j =>
      rw [registerStep_eq_some _ _ _ _ hv]
      rw [insertReplace_of_not_has _ _ _ hj, insertReplace_of_not_has _ _ _ hm]
      rw [foldTriggers_appended scene ts st0.jobs st0.job_map j hj hm]
      cases h2 : lastValidJob scene ts with
      | none => simp [lastValidJob, hv, h2]
      | some j2 => simp [lastValidJob, hv, h2]

theorem unregister_of_find_none (scene_id : String) (st : SchedState)
    (h : st.job_map.find? (fun p => p.1 == scene_id) = none) :
    SceneScheduler.unregister_scene scene_id st = st := by
  unfold SceneScheduler.unregister_scene
  rw [h]

theorem unregister_appended (scene_id : String) (j : CronJob) (U : SchedState)
    (hm : U.job_map.find? (fun p => p.1 == scene_id) = none)
    (hj : U.jobs.any (fun p => p.1 == "scene_" ++ scene_id) = false)
    (hmAny : U.job_map.any (fun p => p.1 == scene_id) = false) :
    SceneScheduler.unregister_scene scene_id
        ⟨U.jobs ++ [("scene_" ++ scene_id, j)], U.job_map ++ [(scene_id, "scene_" ++ scene_id)]⟩
      = U := by
  have hfind : ((U.job_map ++ [(scene_id, "scene_" ++ scene_id)]).find?
      (fun p => p.1 == scene_id)) = some (scene_id, "scene_" ++ scene_id) := by
    rw [List.find?_append, hm]
    simp
  have hany2 : ((U.jobs ++ [("scene_" ++ scene_id, j)]).any
      (fun p => p.1 == "scene_" ++ scene_id)) = true := by simp
  unfold SceneScheduler.unregister_scene
  simp only [hfind]
  rw [if_pos (scene_job_id_ne_empty scene_id), if_pos hany2]
  rw [List.filter_append, List.filter_append]
  rw [filter_keep_of_no_key _ _ hj, filter_keep_of_no_key _ _ hmAny]
  simp [List.filter_cons]

/-- C2 counterexample: a scene with two time triggers, each carrying a
valid cron expression, ends up with a single active schedule after
register_scene — the shared job id scene_<id> with replace_existing
makes the second trigger replace the first — refuting one active
schedule per cron trigger. -/
theorem SceneScheduler.register_scene_collapses_triggers :
    (sceneTwoTimers.definition.triggers.filterMap
        (fun t => validCronOfTrigger t sceneTwoTimers)).length = 2 ∧
    (SceneScheduler.register_scene sceneTwoTimers ⟨[], []⟩).jobs.length = 1 :=
  ⟨rfl, rfl⟩

/-- C2 (amended): on a scheduler state with no stale entries for the
scene once the initial unregister has run, register_scene is idempotent
(registering twice equals registering once), and it leaves at most one
active schedule for the whole scene: the job of the last time trigger
with a valid cron expression, or none — not one schedule per trigger,
since every trigger of the scene shares the job id scene_<id>. -/
theorem SceneScheduler.register_scene_idempotent_single_job (scene : Scene) (st : SchedState)
    (h : SchedState.cleanFor scene.id (SceneScheduler.unregister_scene scene.id st)) :
    SceneScheduler.register_scene scene (SceneScheduler.register_scene scene st) =
      SceneScheduler.register_scene scene st ∧
    lookupA (SceneScheduler.register_scene scene st).jobs ("scene_" ++ scene.id) =
      lastValidJob scene scene.definition.triggers ∧
    (SceneScheduler.register_scene scene st).jobs.countP
        (fun p => p.1 == "scene_" ++ scene.id) =
      (if (lastValidJob scene scene.definition.triggers).isSome then 1 else 0) := by
  obtain ⟨hm, hj⟩ := h
  have hmAny : (SceneScheduler.unregister_scene scene.id st).job_map.any
      (fun p => p.1 == scene.id) = false := any_eq_false_of_find?_eq_none _ _ hm
  have hreg : SceneScheduler.register_scene scene st =
      (match lastValidJob scene scene.definition.triggers with
       | none => SceneScheduler.unregister_scene scene.id st
       | some j =>
         ⟨(SceneScheduler.unregister_scene scene.id st).jobs ++ [("scene_" ++ scene.id, j)],
          (SceneScheduler.unregister_scene scene.id st).job_map
            ++ [(scene.id, "scene_" ++ scene.id)]⟩) := by
    unfold SceneScheduler.register_scene
    exact foldTriggers_clean scene _ _ hj hmAny
  cases hl : lastValidJob scene scene.definition.triggers with
  | none =>
    rw [hl] at hreg
    have hreg2 : SceneScheduler.register_scene scene st =
        SceneScheduler.unregister_scene scene.id st := by rw [hreg]
    refine ⟨?_, ?_, ?_⟩
    · rw [hreg2]
      unfold SceneScheduler.register_scene
      rw [unregister_of_find_none _ _ hm]
      rw [foldTriggers_clean scene _ _ hj hmAny, hl]
    · rw [hreg2]
      unfold lookupA
      rw [find?_eq_none_of_any_false _ _ hj]
      rfl
    · rw [hreg2]
      exact List.countP_eq_zero.mpr (List.any_eq_false.mp hj)
  | some j =>
    rw [hl] at hreg
    have hreg2 : SceneScheduler.register_scene scene st =
        ⟨(SceneScheduler.unregister_scene scene.id st).jobs ++ [("scene_" ++ scene.id, j)],
         (SceneScheduler.unregister_scene scene.id st).job_map
           ++ [(scene.id, "scene_" ++ scene.id)]⟩ := by rw [hreg]
    have hu2 : SceneScheduler.unregister_scene scene.id
        (⟨(SceneScheduler.unregister_scene scene.id st).jobs ++ [("scene_" ++ scene.id, j)],
          (SceneScheduler.unregister_scene scene.id st).job_map
            ++ [(scene.id, "scene_" ++ scene.id)]⟩ : SchedState) =
        SceneScheduler.unregister_scene scene.id st :=
      unregister_appended scene.id j _ hm hj hmAny
    refine ⟨?_, ?_, ?_⟩
    · rw [hreg2]
      unfold SceneScheduler.register_scene
      rw [hu2]
      rw [foldTriggers_clean scene _ _ hj hmAny, hl]
    · rw [hreg2]
      unfold lookupA
      dsimp only
      rw [List.find?_append, find?_eq_none_of_any_false _ _ hj]
      simp
    · rw [hreg2]
      dsimp only
      rw [List.countP_append, List.countP_eq_zero.mpr (List.any_eq_false.mp hj)]
      simp

/-- C2 witness: registering the two-timer scene on an empty scheduler
twice equals registering once, and the one surviving job is the second
(last valid) trigger's cron. -/
theorem SceneScheduler.register_scene_idempotent_single_job_witness :
    SceneScheduler.register_scene sceneTwoTimers
        (SceneScheduler.register_scene sceneTwoTimers ⟨[], []⟩) =
      SceneScheduler.register_scene sceneTwoTimers ⟨[], []⟩ ∧
    lookupA (SceneScheduler.register_scene sceneTwoTimers ⟨[], []⟩).jobs "scene_s1" =
      some ⟨"0", "20", "*", "*", "*", sceneTwoTimers⟩ := by
  have h := SceneScheduler.register_scene_idempotent_single_job sceneTwoTimers ⟨[], []⟩
    ⟨rfl, rfl⟩
  constructor
  · exact h.1
  · have h2 := h.2.1
    rw [show lastValidJob sceneTwoTimers sceneTwoTimers.definition.triggers =
        some ⟨"0", "20", "*", "*", "*", sceneTwoTimers⟩ from rfl] at h2
    exact h2
